import Mathlib

/-!
Verification of the MXU native backend (Tauri shell around the MaaFramework
automation engine). Each Rust function relevant to the checked properties is
shallowly embedded as an executable Lean definition; OS and library calls
(registry reads, process launches, HTTP downloads, FFI results) are passed in
as explicit oracle inputs, so the control flow of the Rust source is what the
definitions compute.
-/

namespace MXU

/-! ## `src-tauri/src/main.rs`, module `webview2_check` -/

/-- Oracle view of the system state consulted by the (dead) detection code in
`webview2_check::is_webview2_installed`: whether one of the two registry keys
opens, whether the `SystemRoot` environment variable resolves, and whether a
`WebView2Loader.dll` exists in `System32` or `SysWOW64`. -/
structure SystemState where
  registryFound : Bool
  systemRootSet : Bool
  loaderDllExists : Bool
  deriving DecidableEq, Repr

/-- The registry + DLL detection logic written on lines 30-75 of `main.rs`
(everything after the early `return false`).  Registry miss means not
installed; with a registry hit, a loader DLL in the system directory means
installed, and a registry hit alone is still treated as installed. -/
def webview2_detection_logic (s : SystemState) : Bool :=
  if !s.registryFound then
    false
  else if s.systemRootSet && s.loaderDllExists then
    true
  else
    s.registryFound

/-- Rust `webview2_check::is_webview2_installed` (main.rs:24-76).  Its first
statement is `return false;` (marked by a TODO as a forced test value), so the
detection logic below it never executes and the function is constantly
`false`. -/
def is_webview2_installed (_s : SystemState) : Bool :=
  false

/-- Rust `webview2_check::ensure_webview2` (main.rs:243-267).  Returns `true` when
the runtime is detected; otherwise asks the user (`userAcceptsInstall`), runs
the bootstrapper when accepted, and returns `false` on decline or install
failure (after showing the manual-install dialog). -/
def webview2_check_ensure (s : SystemState) (userAcceptsInstall : Bool)
    (install : Except String Unit) : Bool :=
  if is_webview2_installed s then
    true
  else if userAcceptsInstall then
    match install with
    | .ok _ => true
    | .error _ => false
  else
    false

/-- What `main` (main.rs:270-281) does on Windows: either the process exits
with a code before any UI exists, or `mxu_lib::run()` is reached (which
creates the application window). -/
inductive MainOutcome where
  | exited (code : Nat)
  | ranUI
  deriving DecidableEq, Repr

/-- Rust `main` on Windows (main.rs:270-281): run the WebView2 bootstrap check;
on `false` exit with code 1, otherwise call `mxu_lib::run()`. -/
def main_windows (s : SystemState) (userAcceptsInstall : Bool)
    (install : Except String Unit) : MainOutcome :=
  if webview2_check_ensure s userAcceptsInstall install then
    .ranUI
  else
    .exited 1

/-! ## `src-tauri/src/webview2/install.rs` -/

/-- Rust `get_arch_info` (install.rs:30-39): map `std::env::consts::ARCH` to the
download label and GUID, erring on any other architecture. -/
def get_arch_info (arch : String) : Except String (String × String) :=
  if arch = "x86_64" then .ok ("x64", "c411606c-d282-4304-8420-8ae6b1dd3e9a")
  else if arch = "aarch64" then .ok ("arm64", "2d2cf37b-d24c-4c72-b5bc-e8061e7a7583")
  else .error ("unsupported CPU architecture: " ++ arch)

/-- State of the exe-side local cab scan performed by `try_extract_local_cab`
(install.rs:262-372): reading the exe path / exe dir / directory listing can
fail, the listing can hold no FixedVersionRuntime cab, only a cab of another
architecture, or an architecture-matched cab whose extraction then succeeds
or fails. -/
inductive LocalCabScan where
  | scanFailed
  | noCab
  | mismatchedArch (arch : String)
  | matchedCab (extractOk : Bool)
  deriving DecidableEq, Repr

/-- Oracle inputs of the install flow: the CPU architecture string, the exe
directory when `current_exe` resolves, the local cab scan outcome, the CDN
download result, the result of extracting the downloaded cab, whether
`msedgewebview2.exe` ends up in the runtime directory, the
`is_webview2_disabled` verdict and the `is_webview2_installed` verdict
(both from `webview2/detection.rs`). -/
structure InstallEnv where
  arch : String
  exeDir : Option String
  localCab : LocalCabScan
  downloadResult : Except String Unit
  cdnExtractResult : Except String Unit
  msedgeExePresent : Bool
  disabledReason : Option String
  systemInstalled : Bool

/-- Rust `get_webview2_runtime_dir` (install.rs:42-48): the `cache/webview2_runtime`
directory next to the exe, erring when the exe path is unavailable. -/
def get_webview2_runtime_dir (e : InstallEnv) : Except String String :=
  match e.exeDir with
  | some d => .ok (d ++ "/cache/webview2_runtime")
  | none => .error "cannot determine the program directory"

/-- Rust `validate_runtime_dir` (install.rs:51-60): error unless
`msedgewebview2.exe` exists in the runtime directory. -/
def validate_runtime_dir (msedgeExePresent : Bool) : Except String Unit :=
  if msedgeExePresent then .ok ()
  else .error "runtime directory incomplete: msedgewebview2.exe not found"

/-- Rust `try_extract_local_cab` (install.rs:262-372).  `none` means fall through
to the CDN download (scan failure, no cab, mismatched architecture after a
warning dialog, or a matched cab whose extraction failed); a matched cab that
extracts cleanly short-circuits with `some (.ok ())` — the function never
returns `some (.error _)` in the source. -/
def try_extract_local_cab (e : InstallEnv) : Option (Except String Unit) :=
  match get_arch_info e.arch with
  | .error _ => none
  | .ok _ =>
    match e.localCab with
    | .scanFailed => none
    | .noCab => none
    | .mismatchedArch _ => none
    | .matchedCab extractOk => if extractOk then some (.ok ()) else none

/-- Observable side effects of `download_and_extract`: whether the CDN
download was attempted and whether `WEBVIEW2_BROWSER_EXECUTABLE_FOLDER` was
set for the current process. -/
structure InstallEffects where
  cdnDownloadAttempted : Bool
  browserFolderEnvSet : Bool
  deriving DecidableEq, Repr

/-- Rust `download_and_extract` (install.rs:375-515): resolve the architecture and
runtime directory, prefer a cab already beside the exe, otherwise download the
Fixed Version Runtime cab from the CDN and extract it; in either success case
check `msedgewebview2.exe` via `validate_runtime_dir` and set
`WEBVIEW2_BROWSER_EXECUTABLE_FOLDER`; every failing step yields `Err`. -/
def download_and_extract (e : InstallEnv) : Except String Unit × InstallEffects :=
  match get_arch_info e.arch with
  | .error msg => (.error msg, ⟨false, false⟩)
  | .ok _ =>
    match get_webview2_runtime_dir e with
    | .error msg => (.error msg, ⟨false, false⟩)
    | .ok _ =>
      match try_extract_local_cab e with
      | some localResult =>
        match localResult with
        | .ok _ =>
          match validate_runtime_dir e.msedgeExePresent with
          | .error msg => (.error msg, ⟨false, false⟩)
          | .ok _ => (.ok (), ⟨false, true⟩)
        | .error msg => (.error msg, ⟨false, false⟩)
      | none =>
        match e.downloadResult with
        | .error msg => (.error msg, ⟨true, false⟩)
        | .ok _ =>
          match e.cdnExtractResult with
          | .error msg => (.error msg, ⟨true, false⟩)
          | .ok _ =>
            match validate_runtime_dir e.msedgeExePresent with
            | .error msg => (.error msg, ⟨true, false⟩)
            | .ok _ => (.ok (), ⟨true, true⟩)

/-- The shared tail of `ensure_webview2` (install.rs:550-558): run
`download_and_extract`, returning `true` on `Ok` and `false` (after the
failure dialog) on `Err`. -/
def ensure_download_path (e : InstallEnv) : Bool × InstallEffects :=
  match download_and_extract e with
  | (.ok _, eff) => (true, eff)
  | (.error _, eff) => (false, eff)

/-- Rust `webview2::ensure_webview2` (install.rs:518-559): when the system WebView2
is reported disabled, show a dialog and fall through to the independent
runtime; when it is installed (and not disabled) return `true` directly;
otherwise download and extract the Fixed Version Runtime. -/
def ensure_webview2 (e : InstallEnv) : Bool × InstallEffects :=
  if e.disabledReason.isSome then
    ensure_download_path e
  else if e.systemInstalled then
    (true, ⟨false, false⟩)
  else
    ensure_download_path e

/-! ## `src-tauri/src/mxu_actions.rs` -/

/-- Rust `MaaBool`: the engine's C boolean, a byte holding 0 or 1 in this code. -/
abbrev MaaBool := Nat

/-- The subset of a parsed `custom_action_param` JSON object the two actions
read: `sleep_time` via `as_u64`, `program` and `args` via `as_str`,
`wait_for_exit` via `as_bool` (each `none` when absent or of another type). -/
structure ActionParamJson where
  sleepTime : Option Nat
  program : Option String
  args : Option String
  waitForExit : Option Bool

/-- The `custom_action_param` pointer handed to a callback: null, or a string
whose `serde_json` parse outcome is recorded (`.error` for non-JSON input). -/
inductive ActionParam where
  | nullPtr
  | str (parsed : Except String ActionParamJson)

/-- A null `custom_action_param` is replaced by the literal `"\x7b\x7d"`
(empty JSON object), which parses successfully with every field absent
(mxu_actions.rs:35-40 and 99-104). -/
def param_json (p : ActionParam) : Except String ActionParamJson :=
  match p with
  | .nullPtr => .ok ⟨none, none, none, none⟩
  | .str parsed => parsed

/-- The `std::panic::catch_unwind` wrapper both callbacks end with
(mxu_actions.rs:65-71 and 185-191): a panic inside the closure (oracle
`panic`) is caught and turned into `MaaBool` 0; otherwise the closure's
return value passes through. -/
def run_catch_unwind (panic : Option String) (body : MaaBool) : MaaBool :=
  match panic with
  | some _ => 0
  | none => body

/-- The closure body of `mxu_sleep_action` (mxu_actions.rs:33-63): read
`sleep_time` (default 5 on null param, parse failure or absent field), sleep
that many seconds, return 1. -/
def mxu_sleep_body (p : ActionParam) : MaaBool :=
  let _sleepSeconds : Nat :=
    match param_json p with
    | .ok json => json.sleepTime.getD 5
    | .error _ => 5
  1

/-- Rust `mxu_sleep_action` (mxu_actions.rs:22-72): the closure body under
`catch_unwind`. -/
def mxu_sleep_action (p : ActionParam) (panic : Option String) : MaaBool :=
  run_catch_unwind panic (mxu_sleep_body p)

/-- Oracle results of the process operations `mxu_launch_action` may perform:
`cmd.status()` (wait for exit) or `cmd.spawn()`. -/
structure LaunchEnv where
  statusResult : Except String Int
  spawnResult : Except String Unit

/-- The closure body of `mxu_launch_action` (mxu_actions.rs:98-183): fail (0)
on JSON parse error or a missing/blank `program`; otherwise run the program,
waiting for exit when `wait_for_exit` is true, and return 1 exactly when the
process operation succeeded. -/
def mxu_launch_body (p : ActionParam) (env : LaunchEnv) : MaaBool :=
  match param_json p with
  | .error _ => 0
  | .ok json =>
    match json.program with
    | none => 0
    | some prog =>
      if prog.trim = "" then 0
      else
        let waitForExit := json.waitForExit.getD false
        if waitForExit then
          match env.statusResult with
          | .ok _ => 1
          | .error _ => 0
        else
          match env.spawnResult with
          | .ok _ => 1
          | .error _ => 0

/-- Rust `mxu_launch_action` (mxu_actions.rs:88-192): the closure body under
`catch_unwind`. -/
def mxu_launch_action (p : ActionParam) (env : LaunchEnv) (panic : Option String) : MaaBool :=
  run_catch_unwind panic (mxu_launch_body p env)

/-- Engine responses to the two `maa_resource_register_custom_action` calls
(`MaaBool`, 0 = failure). -/
structure RegisterEnv where
  sleepRegisterResult : Nat
  launchRegisterResult : Nat
  deriving DecidableEq, Repr

/-- Rust `register_all_mxu_actions` (mxu_actions.rs:207-246): register
`MXU_SLEEP_ACTION`, then `MXU_LAUNCH_ACTION`, logging each engine response but
never acting on it, and return `Ok(())`.  The second component lists the
action names passed to `maa_resource_register_custom_action`, in call
order. -/
def register_all_mxu_actions (_env : RegisterEnv) : Except String Unit × List String :=
  (.ok (), ["MXU_SLEEP_ACTION", "MXU_LAUNCH_ACTION"])

/-! ## `src-tauri/src/tray.rs` and `src-tauri/src/commands/tray.rs`

The `MINIMIZE_TO_TRAY` atomic boolean is embedded by explicit state passing:
each operation takes the current flag value and, when it writes, returns the
new one. -/

/-- Initial value of the `MINIMIZE_TO_TRAY` static (tray.rs:13):
`AtomicBool::new(false)`. -/
def MINIMIZE_TO_TRAY_INIT : Bool := false

/-- Rust `tray::set_minimize_to_tray` (tray.rs:19-21): store the argument. -/
def set_minimize_to_tray (enabled : Bool) (_flag : Bool) : Bool :=
  enabled

/-- Rust `tray::get_minimize_to_tray` (tray.rs:24-26): load the flag. -/
def get_minimize_to_tray (flag : Bool) : Bool :=
  flag

/-- Rust `tray::handle_close_requested` (tray.rs:109-119).  First component:
whether the main window was hidden (the `window.hide()` branch); second:
the return value, `true` to block the close. -/
def handle_close_requested (flag : Bool) : Bool × Bool :=
  if get_minimize_to_tray flag then
    (true, true)
  else
    (false, false)

/-- Rust `commands::tray::set_minimize_to_tray` (commands/tray.rs:7-10): delegate
to `tray::set_minimize_to_tray` and log. -/
def command_set_minimize_to_tray (enabled : Bool) (flag : Bool) : Bool :=
  set_minimize_to_tray enabled flag

/-- Rust `commands::tray::get_minimize_to_tray` (commands/tray.rs:14-16):
delegate to `tray::get_minimize_to_tray`. -/
def command_get_minimize_to_tray (flag : Bool) : Bool :=
  get_minimize_to_tray flag

/-- Whether a string contains `".."` as a substring, checked over its
character list — the `icon_path.contains("..")` test of tray.rs:125. -/
def chars_contain_dotdot : List Char → Bool
  | [] => false
  | [_] => false
  | a :: b :: rest => (a = '.' && b = '.') || chars_contain_dotdot (b :: rest)

/-- Rust `icon_path.contains("..")` (tray.rs:125). -/
def icon_path_has_traversal (iconPath : String) : Bool :=
  chars_contain_dotdot iconPath.toList

/-- Rust `Path::starts_with` on canonical paths, with paths represented as their
component lists: the second argument is a component-wise prefix of the
first. -/
def path_starts_with : List String → List String → Bool
  | _, [] => true
  | [], _ :: _ => false
  | a :: restA, b :: restB => a = b && path_starts_with restA restB

/-- Oracle inputs of `update_tray_icon`: the exe directory (when
`current_exe().parent()` resolves), the two `canonicalize` results as
component lists (`none` = error), and the success of the file read, icon
parse, tray initialization and `set_icon` call. -/
structure TrayIconEnv where
  exeDirOk : Bool
  canonicalFullPath : Option (List String)
  canonicalExeDir : Option (List String)
  readFileOk : Bool
  parseIconOk : Bool
  lockOk : Bool
  trayInitialized : Bool
  setIconOk : Bool

/-- Rust `tray::update_tray_icon` (tray.rs:123-171).  Second component: whether
`tray.set_icon` was reached.  Reject `".."` in the raw path, resolve and
canonicalize, reject canonical paths outside the exe directory, then read,
parse and install the icon. -/
def update_tray_icon (env : TrayIconEnv) (iconPath : String) : Except String Unit × Bool :=
  if icon_path_has_traversal iconPath then
    (.error "Invalid icon path: path traversal not allowed", false)
  else if !env.exeDirOk then
    (.error "Failed to get exe path or directory", false)
  else
    match env.canonicalFullPath with
    | none => (.error "Failed to resolve icon path", false)
    | some canonicalPath =>
      match env.canonicalExeDir with
      | none => (.error "Failed to resolve exe directory", false)
      | some canonicalExeDir =>
        if !path_starts_with canonicalPath canonicalExeDir then
          (.error "Invalid icon path: must be within application directory", false)
        else if !env.readFileOk then
          (.error "Failed to read icon file", false)
        else if !env.parseIconOk then
          (.error "Failed to parse icon", false)
        else if !env.lockOk then
          (.error "Failed to lock tray mutex", false)
        else if !env.trayInitialized then
          (.error "Tray icon not initialized", false)
        else if env.setIconOk then
          (.ok (), true)
        else
          (.error "Failed to set tray icon", true)

/-! ## `src-tauri/src/commands/system.rs` -/

/-- Oracle view of the Windows token queries made by `is_elevated`: whether
`OpenProcessToken` succeeds, whether `GetTokenInformation` succeeds, and the
`TokenIsElevated` field (a u32) it fills in. -/
structure TokenEnv where
  openProcessTokenOk : Bool
  getTokenInformationOk : Bool
  tokenIsElevated : Nat
  deriving DecidableEq, Repr

/-- Rust `is_elevated`, Windows branch (system.rs:15-51): `false` when
`OpenProcessToken` fails; otherwise query `TokenElevation` and report
`TokenIsElevated != 0` on success, `false` when `GetTokenInformation`
fails. -/
def is_elevated_windows (env : TokenEnv) : Bool :=
  if !env.openProcessTokenOk then
    false
  else if env.getTokenInformationOk then
    env.tokenIsElevated != 0
  else
    false

/-- Rust `is_elevated`, non-Windows branch (system.rs:53-57):
`libc::geteuid() == 0`. -/
def is_elevated_unix (euid : Nat) : Bool :=
  euid == 0

/-- Properties the overlay window builder is configured with in
`create_log_overlay_window` (system.rs:358-375). -/
structure OverlayWindowProps where
  alwaysOnTop : Bool
  decorations : Bool
  resizable : Bool
  skipTaskbar : Bool
  visibleAtBuild : Bool
  deriving DecidableEq, Repr

/-- Oracle inputs of `create_log_overlay_window`: whether a window labelled
`log-overlay` already exists, and whether the build, `set_position` and
`show` calls succeed. -/
structure OverlayEnv where
  overlayAlreadyExists : Bool
  buildOk : Bool
  setPositionOk : Bool
  showOk : Bool
  deriving DecidableEq, Repr

/-- Rust `create_log_overlay_window` (system.rs:338-392).  The f64 size and the
physical position are carried opaquely (they only flow into `inner_size` /
`set_position`).  Second component: the properties of the window the builder
created, `none` when no window was built this call. -/
def create_log_overlay_window (env : OverlayEnv) (alwaysOnTop : Bool) :
    Except String Unit × Option OverlayWindowProps :=
  if env.overlayAlreadyExists then
    (.ok (), none)
  else if !env.buildOk then
    (.error "Failed to create log overlay window", none)
  else
    let props : OverlayWindowProps :=
      { alwaysOnTop := alwaysOnTop
        decorations := false
        resizable := true
        skipTaskbar := true
        visibleAtBuild := false }
    if !env.setPositionOk then
      (.error "Failed to set position", some props)
    else if !env.showOk then
      (.error "Failed to show window", some props)
    else
      (.ok (), some props)

/-- Oracle inputs of `set_overlay_always_on_top` (system.rs:520-536):
whether the `log-overlay` window exists and whether the window-manager call
succeeds. -/
structure OverlayTopEnv where
  overlayExists : Bool
  setAlwaysOnTopOk : Bool
  deriving DecidableEq, Repr

/-- Rust `set_overlay_always_on_top` (system.rs:520-536).  Second component: the
always-on-top value applied to the overlay, `none` when nothing was
applied. -/
def set_overlay_always_on_top (env : OverlayTopEnv) (alwaysOnTop : Bool) :
    Except String Unit × Option Bool :=
  if !env.overlayExists then
    (.error "Overlay window not found", none)
  else if env.setAlwaysOnTopOk then
    (.ok (), some alwaysOnTop)
  else
    (.error "Failed to set always_on_top", some alwaysOnTop)

/-! ## MaaFramework library loading (`commands/system.rs`, `lib.rs`) -/

/-- Rust `MaaLibraryError` from `maa_ffi` as matched by `lib.rs:92`: a
`LoadFailed` variant carrying whether the DLL files exist plus the loader
error, and the remaining variants collapsed. -/
inductive MaaLibraryError where
  | loadFailed (dllsExist : Bool) (error : String)
  | other (msg : String)
  deriving DecidableEq, Repr

/-- Render a `MaaLibraryError` as the string `map_err(|e| e.to_string())`
produces. -/
def MaaLibraryError.str : MaaLibraryError → String
  | .loadFailed _ e => e
  | .other e => e

/-- Oracle inputs of the library-loading paths: the `get_maafw_dir` result,
whether that directory exists, the `init_maa_library` outcome, and the
`get_maa_version` result. -/
structure MaaLoadEnv where
  maafwDir : Except String String
  maafwDirExists : Bool
  initResult : Except MaaLibraryError Unit
  version : Option String

/-- Rust `retry_load_maa_library` (system.rs:273-287): resolve the maafw
directory, err with `"MaaFramework directory not found"` when it does not
exist, attempt `init_maa_library`, and on success return
`get_maa_version().unwrap_or_default()`. -/
def retry_load_maa_library (env : MaaLoadEnv) : Except String String :=
  match env.maafwDir with
  | .error e => .error e
  | .ok _ =>
    if !env.maafwDirExists then
      .error "MaaFramework directory not found"
    else
      match env.initResult with
      | .error e => .error e.str
      | .ok _ => .ok (env.version.getD "")

/-- Modelled from the spec: `maa_ffi::set_vcredist_missing` (maa_ffi.rs is
not under src/; only its callers are).  Per the startup path of `lib.rs:98`
it stores its argument into a process-global flag that the frontend later
queries; embedded as a state update on that flag. -/
def set_vcredist_missing (value : Bool) (_flag : Bool) : Bool :=
  value

/-- Modelled from the spec: `maa_ffi::check_and_clear_vcredist_missing`
(maa_ffi.rs is not under src/).  Per its name and the doc comment of
`check_vcredist_missing` (system.rs:289, "检查后自动清除标记" — the mark is
cleared after the check), it returns the flag's current value and resets the
flag to `false`; embedded as value plus new state. -/
def check_and_clear_vcredist_missing (flag : Bool) : Bool × Bool :=
  (flag, false)

/-- Rust `check_vcredist_missing` (system.rs:291-297): return
`check_and_clear_vcredist_missing()` (and log when it was set).  Value plus
new flag state. -/
def check_vcredist_missing (flag : Bool) : Bool × Bool :=
  check_and_clear_vcredist_missing flag

/-- The MaaFramework-loading fragment of the `run()` setup closure
(lib.rs:85-105): when the maafw directory resolves and exists, attempt
`init_maa_library`; when that fails with `LoadFailed` and the DLL files do
exist, call `set_vcredist_missing(true)`.  Returns the vcredist flag after
this fragment. -/
def run_setup_maa_load (env : MaaLoadEnv) (flag : Bool) : Bool :=
  match env.maafwDir with
  | .error _ => flag
  | .ok _ =>
    if !env.maafwDirExists then
      flag
    else
      match env.initResult with
      | .ok _ => flag
      | .error e =>
        match e with
        | .loadFailed true _ => set_vcredist_missing true flag
        | .loadFailed false _ => flag
        | .other _ => flag

/-! ## Theorems -/

/-- C1: On Windows, the UI never loads before the web-rendering-runtime check
succeeds: `main` reaches `mxu_lib::run()` exactly when
`webview2_check::ensure_webview2` returned `true`, and otherwise the process
exits with code 1 before any UI is created. -/
theorem c1_ui_only_after_webview2_check (s : SystemState) (u : Bool)
    (i : Except String Unit) :
    (main_windows s u i = .ranUI ↔ webview2_check_ensure s u i = true) ∧
    (main_windows s u i = .exited 1 ↔ webview2_check_ensure s u i = false) := by
  unfold main_windows
  by_cases h : webview2_check_ensure s u i = true <;> simp [h]

/-- C3: `webview2_check::is_webview2_installed` in main.rs returns `false`
for every system state (the early `return false` test stub), the detection
code after it is unreachable yet would answer `true` on some states, and the
Windows startup path consequently always treats WebView2 as not installed:
`ensure_webview2` in main.rs never takes the already-installed branch, so its
result is decided purely by the user prompt and the installer. -/
theorem c3_is_webview2_installed_always_false :
    (∀ s : SystemState, is_webview2_installed s = false) ∧
    (∃ s : SystemState, webview2_detection_logic s = true ∧
      is_webview2_installed s ≠ webview2_detection_logic s) ∧
    (∀ (s : SystemState) (u : Bool) (i : Except String Unit),
      webview2_check_ensure s u i = (u && i.isOk)) := by
  refine ⟨fun _ => rfl, ⟨⟨true, true, true⟩, by decide, by decide⟩, ?_⟩
  intro s u i
  cases u <;> cases i <;> rfl

/-- C6: `register_all_mxu_actions` passes both action names,
`MXU_SLEEP_ACTION` then `MXU_LAUNCH_ACTION`, to
`maa_resource_register_custom_action`, and returns `Ok(())` whatever the
engine answered for either registration (failures are only logged). -/
theorem c6_register_all_unconditional_ok (env : RegisterEnv) :
    register_all_mxu_actions env = (.ok (), ["MXU_SLEEP_ACTION", "MXU_LAUNCH_ACTION"]) :=
  rfl

/-- C9: the minimize-to-tray flag starts out `false`, `get_minimize_to_tray`
returns `b` after `set_minimize_to_tray b` (also through the command
wrappers), and `handle_close_requested` hides the main window and blocks the
close exactly when the stored flag is `true`. -/
theorem c9_minimize_to_tray_roundtrip (b flag : Bool) :
    MINIMIZE_TO_TRAY_INIT = false ∧
    get_minimize_to_tray (set_minimize_to_tray b flag) = b ∧
    command_get_minimize_to_tray (command_set_minimize_to_tray b flag) = b ∧
    handle_close_requested flag = (flag, flag) := by
  cases b <;> cases flag <;> exact ⟨rfl, rfl, rfl, rfl⟩

/-- C4: for every invocation of `mxu_sleep_action` and `mxu_launch_action` —
including null and non-JSON `custom_action_param` — the value crossing the
FFI boundary is always `MaaBool` 0 or 1, a caught panic always yields 0, and
without a panic each callback reports 1 on success and 0 on failure: the
sleep action always succeeds (defaulting `sleep_time` to 5 on null, non-JSON
or absent values), and the launch action succeeds exactly when its body
did. -/
theorem c4_custom_actions_never_unwind :
    (∀ (p : ActionParam) (panic : Option String),
      mxu_sleep_action p panic = 0 ∨ mxu_sleep_action p panic = 1) ∧
    (∀ (p : ActionParam) (env : LaunchEnv) (panic : Option String),
      mxu_launch_action p env panic = 0 ∨ mxu_launch_action p env panic = 1) ∧
    (∀ (p : ActionParam) (msg : String), mxu_sleep_action p (some msg) = 0) ∧
    (∀ (p : ActionParam) (env : LaunchEnv) (msg : String),
      mxu_launch_action p env (some msg) = 0) ∧
    (∀ p : ActionParam, mxu_sleep_action p none = 1) ∧
    (∀ env : LaunchEnv, mxu_launch_action .nullPtr env none = 0) ∧
    (∀ (err : String) (env : LaunchEnv),
      mxu_launch_action (.str (.error err)) env none = 0) ∧
    (∀ (p : ActionParam) (env : LaunchEnv),
      mxu_launch_action p env none = mxu_launch_body p env ∧
      (mxu_launch_body p env = 0 ∨ mxu_launch_body p env = 1)) := by
  have hbody : ∀ (p : ActionParam) (env : LaunchEnv),
      mxu_launch_body p env = 0 ∨ mxu_launch_body p env = 1 := by
    intro p env
    unfold mxu_launch_body
    repeat' split
    all_goals try dsimp only
    repeat' split
    all_goals first | exact Or.inl rfl | exact Or.inr rfl
  refine ⟨?_, ?_, fun _ _ => rfl, fun _ _ _ => rfl, fun _ => rfl,
    fun _ => rfl, fun _ _ => rfl, fun p env => ⟨rfl, hbody p env⟩⟩
  · intro p panic
    rcases panic with _ | msg
    · exact Or.inr rfl
    · exact Or.inl rfl
  · intro p env panic
    rcases panic with _ | msg
    · exact hbody p env
    · exact Or.inl rfl

/-- C10: the elevation check is total: in the embedding `is_elevated`
returns a boolean for every oracle outcome; on Windows it answers `true`
exactly when `OpenProcessToken` and `GetTokenInformation` both succeed and
the reported `TokenIsElevated` is nonzero (so `false` whenever either call
fails), and on non-Windows it answers `true` exactly when the effective user
id is 0. -/
theorem c10_is_elevated_total (env : TokenEnv) (euid : Nat) :
    (is_elevated_windows env = true ↔
      (env.openProcessTokenOk = true ∧ env.getTokenInformationOk = true ∧
        env.tokenIsElevated ≠ 0)) ∧
    (env.openProcessTokenOk = false → is_elevated_windows env = false) ∧
    (env.getTokenInformationOk = false → is_elevated_windows env = false) ∧
    (is_elevated_unix euid = true ↔ euid = 0) := by
  obtain ⟨opt, gti, elev⟩ := env
  refine ⟨?_, ?_, ?_, ?_⟩
  · cases opt <;> cases gti <;>
      simp [is_elevated_windows, Nat.pos_iff_ne_zero]
  · intro h
    subst h
    rfl
  · intro h
    subst h
    cases opt <;> rfl
  · simp [is_elevated_unix]

/-- C8: `update_tray_icon` rejects every `icon_path` containing `".."` with
an error before touching the tray, and whenever both canonicalizations
succeed but the canonical path lies outside the exe directory it returns
`Err` with `set_icon` unreached, leaving the tray icon unchanged. -/
theorem c8_tray_icon_path_validation (env : TrayIconEnv) (iconPath : String) :
    (icon_path_has_traversal iconPath = true →
      update_tray_icon env iconPath =
        (.error "Invalid icon path: path traversal not allowed", false)) ∧
    (∀ cp ced, env.canonicalFullPath = some cp → env.canonicalExeDir = some ced →
      path_starts_with cp ced = false →
      (update_tray_icon env iconPath).1.isOk = false ∧
      (update_tray_icon env iconPath).2 = false) := by
  constructor
  · intro h
    unfold update_tray_icon
    simp [h]
  · intro cp ced hcp hced hout
    unfold update_tray_icon
    by_cases ht : icon_path_has_traversal iconPath
    · simp [ht, Except.isOk, Except.toBool]
    · by_cases hd : env.exeDirOk
      · simp [ht, hd, hcp, hced, hout, Except.isOk, Except.toBool]
      · simp [ht, hd, Except.isOk, Except.toBool]

/-- Concrete oracle environment for the C8 witness: every later step would
succeed, the canonical icon path resolves outside the exe directory. -/
def c8WitnessEnv : TrayIconEnv :=
  { exeDirOk := true
    canonicalFullPath := some ["C:", "elsewhere", "icon.png"]
    canonicalExeDir := some ["C:", "mxu"]
    readFileOk := true
    parseIconOk := true
    lockOk := true
    trayInitialized := true
    setIconOk := true }

/-- Witness for C8 at concrete inputs: a traversal path is rejected outright,
and a path canonicalizing outside the exe directory yields `Err` without
reaching `set_icon`. -/
theorem c8_tray_icon_path_validation_witness :
    update_tray_icon c8WitnessEnv "../icon.png" =
      (.error "Invalid icon path: path traversal not allowed", false) ∧
    ((update_tray_icon c8WitnessEnv "icon.png").1.isOk = false ∧
      (update_tray_icon c8WitnessEnv "icon.png").2 = false) :=
  ⟨(c8_tray_icon_path_validation c8WitnessEnv "../icon.png").1 (by decide),
   (c8_tray_icon_path_validation c8WitnessEnv "icon.png").2
     ["C:", "elsewhere", "icon.png"] ["C:", "mxu"] rfl rfl (by decide)⟩

/-- C7: library load failures are surfaced, not fatal:
`retry_load_maa_library` errs with `"MaaFramework directory not found"` when
the maafw directory is missing and otherwise returns the engine version
string once `init_maa_library` succeeds; the startup fragment of `run()`
raises the vcredist-missing flag when loading fails although the DLL files
exist; and `check_vcredist_missing` returns the flag and clears it. -/
theorem c7_maa_load_error_surfacing (env : MaaLoadEnv) (flag : Bool) :
    (∀ d, env.maafwDir = .ok d → env.maafwDirExists = false →
      retry_load_maa_library env = .error "MaaFramework directory not found") ∧
    (∀ d, env.maafwDir = .ok d → env.maafwDirExists = true →
      env.initResult = .ok () →
      retry_load_maa_library env = .ok (env.version.getD "")) ∧
    (∀ d msg, env.maafwDir = .ok d → env.maafwDirExists = true →
      env.initResult = .error (.loadFailed true msg) →
      run_setup_maa_load env flag = true) ∧
    check_vcredist_missing flag = (flag, false) := by
  refine ⟨?_, ?_, ?_, rfl⟩
  · intro d hd hex
    unfold retry_load_maa_library
    simp [hd, hex]
  · intro d hd hex hinit
    unfold retry_load_maa_library
    simp [hd, hex, hinit]
  · intro d msg hd hex hinit
    unfold run_setup_maa_load
    simp [hd, hex, hinit, set_vcredist_missing]

/-- Concrete environment for the C7 witness: the maafw directory resolves
but does not exist. -/
def c7EnvNoDir : MaaLoadEnv :=
  { maafwDir := .ok "C:/mxu/maafw", maafwDirExists := false,
    initResult := .ok (), version := some "4.5.1" }

/-- Concrete environment for the C7 witness: the load succeeds and the
engine reports version 4.5.1. -/
def c7EnvLoaded : MaaLoadEnv :=
  { maafwDir := .ok "C:/mxu/maafw", maafwDirExists := true,
    initResult := .ok (), version := some "4.5.1" }

/-- Concrete environment for the C7 witness: the DLLs exist but the loader
fails, the vcredist-missing case. -/
def c7EnvVcredist : MaaLoadEnv :=
  { maafwDir := .ok "C:/mxu/maafw", maafwDirExists := true,
    initResult := .error (.loadFailed true "STATUS_DLL_NOT_FOUND"),
    version := none }

/-- Witness for C7 at concrete inputs: missing directory errs, a successful
load returns the version, a load failure with DLLs present raises the flag,
and checking the raised flag returns `true` while clearing it. -/
theorem c7_maa_load_error_surfacing_witness :
    retry_load_maa_library c7EnvNoDir = .error "MaaFramework directory not found" ∧
    retry_load_maa_library c7EnvLoaded = .ok "4.5.1" ∧
    run_setup_maa_load c7EnvVcredist false = true ∧
    check_vcredist_missing true = (true, false) :=
  ⟨(c7_maa_load_error_surfacing c7EnvNoDir false).1 "C:/mxu/maafw" rfl rfl,
   (c7_maa_load_error_surfacing c7EnvLoaded false).2.1 "C:/mxu/maafw" rfl rfl rfl,
   (c7_maa_load_error_surfacing c7EnvVcredist false).2.2.1 "C:/mxu/maafw"
     "STATUS_DLL_NOT_FOUND" rfl rfl rfl,
   (c7_maa_load_error_surfacing c7EnvNoDir true).2.2.2⟩

/-- C5 counterexample: the claim "every window created by
`create_log_overlay_window` is always-on-top" is false — with no overlay yet
present and a successful build, calling the command with
`always_on_top = false` creates a window whose always-on-top flag is
`false` (the builder passes the caller's flag through, system.rs:367). -/
theorem c5_overlay_not_always_on_top_counterexample :
    ¬ (∀ (env : OverlayEnv) (aot : Bool) (props : OverlayWindowProps),
        (create_log_overlay_window env aot).2 = some props →
        props.alwaysOnTop = true) := by
  intro h
  have h2 := h ⟨false, true, true, true⟩ false
    { alwaysOnTop := false, decorations := false, resizable := true,
      skipTaskbar := true, visibleAtBuild := false } rfl
  exact Bool.false_ne_true h2

/-- C5 amended: every window created by `create_log_overlay_window` has its
always-on-top flag equal to the caller-supplied `always_on_top` argument
(undecorated, resizable, skipping the taskbar), and
`set_overlay_always_on_top` applies exactly its argument to an existing
overlay. -/
theorem c5_overlay_always_on_top_matches_argument :
    (∀ (env : OverlayEnv) (aot : Bool) (props : OverlayWindowProps),
      (create_log_overlay_window env aot).2 = some props →
      props.alwaysOnTop = aot ∧ props.decorations = false ∧
        props.skipTaskbar = true ∧ props.resizable = true) ∧
    (∀ (env : OverlayTopEnv) (aot b : Bool),
      (set_overlay_always_on_top env aot).2 = some b → b = aot) := by
  constructor
  · intro env aot props h
    obtain ⟨ex, bld, pos, shw⟩ := env
    cases ex <;> cases bld <;> cases pos <;> cases shw <;>
      simp [create_log_overlay_window] at h <;>
      simp [← h]
  · intro env aot b h
    obtain ⟨ex, ok⟩ := env
    cases ex <;> cases ok <;> simp [set_overlay_always_on_top] at h <;> simp [h]

/-- Witness for the amended C5 at concrete inputs: building with
`always_on_top = true` yields a window whose flag is `true`, and applying
`set_overlay_always_on_top true` to an existing overlay applies `true`. -/
theorem c5_overlay_always_on_top_matches_argument_witness :
    ((⟨true, false, true, true, false⟩ : OverlayWindowProps).alwaysOnTop = true ∧
      (⟨true, false, true, true, false⟩ : OverlayWindowProps).decorations = false ∧
      (⟨true, false, true, true, false⟩ : OverlayWindowProps).skipTaskbar = true ∧
      (⟨true, false, true, true, false⟩ : OverlayWindowProps).resizable = true) ∧
    true = true :=
  ⟨c5_overlay_always_on_top_matches_argument.1 ⟨false, true, true, true⟩ true
      ⟨true, false, true, true, false⟩ rfl,
   c5_overlay_always_on_top_matches_argument.2 ⟨true, true⟩ true true rfl⟩

/-- Witness for C10 at concrete inputs: an elevated token answers `true`,
a failing `OpenProcessToken` answers `false`, a failing
`GetTokenInformation` answers `false`, and effective uid 0 answers
`true`. -/
theorem c10_is_elevated_total_witness :
    is_elevated_windows ⟨true, true, 1⟩ = true ∧
    is_elevated_windows ⟨false, true, 1⟩ = false ∧
    is_elevated_windows ⟨true, false, 1⟩ = false ∧
    is_elevated_unix 0 = true :=
  ⟨(c10_is_elevated_total ⟨true, true, 1⟩ 0).1.mpr ⟨rfl, rfl, Nat.one_ne_zero⟩,
   (c10_is_elevated_total ⟨false, true, 1⟩ 0).2.1 rfl,
   (c10_is_elevated_total ⟨true, false, 1⟩ 0).2.2.1 rfl,
   (c10_is_elevated_total ⟨true, true, 1⟩ 0).2.2.2.mpr rfl⟩

/-- C2: the webview-runtime acquisition flow proceeds detect, then download,
then extract: `webview2::ensure_webview2` returns `true` without any
download or environment change when the system WebView2 is installed and not
disabled; a cab beside the exe that extracts cleanly preempts the CDN
download; `download_and_extract` succeeds exactly when the architecture and
exe directory resolve, `msedgewebview2.exe` is verified present, and either
the local cab or the download-plus-extract path went through (so it returns
`Err` whenever any step fails); every success sets
`WEBVIEW2_BROWSER_EXECUTABLE_FOLDER`; and otherwise `ensure_webview2`
reports exactly the success of `download_and_extract`. -/
theorem c2_webview2_acquisition_flow (e : InstallEnv) :
    (e.disabledReason = none → e.systemInstalled = true →
      ensure_webview2 e = (true, ⟨false, false⟩)) ∧
    ((download_and_extract e).1 = .ok () →
      (download_and_extract e).2.browserFolderEnvSet = true ∧
        e.msedgeExePresent = true) ∧
    (e.localCab = .matchedCab true →
      (download_and_extract e).2.cdnDownloadAttempted = false) ∧
    ((download_and_extract e).1 = .ok () ↔
      ((get_arch_info e.arch).isOk = true ∧ e.exeDir.isSome = true ∧
        e.msedgeExePresent = true ∧
        (e.localCab = .matchedCab true ∨
          (e.downloadResult.isOk = true ∧ e.cdnExtractResult.isOk = true)))) ∧
    ((e.disabledReason.isSome = true ∨ e.systemInstalled = false) →
      (ensure_webview2 e).1 = (download_and_extract e).1.isOk) := by
  obtain ⟨arch, exeDir, localCab, dl, ex, msedge, dis, inst⟩ := e
  refine ⟨?_, ?_, ?_, ?_, ?_⟩
  · intro h1 h2
    simp only at h1 h2
    subst h1; subst h2
    simp [ensure_webview2]
  · rcases hA : get_arch_info arch with m | info <;>
      rcases exeDir with _ | d <;>
      rcases localCab with _ | _ | marc | eOk <;>
      (try cases eOk) <;>
      rcases dl with dm | du <;>
      rcases ex with em | eu <;>
      cases msedge <;>
      simp_all [download_and_extract, try_extract_local_cab,
        get_webview2_runtime_dir, validate_runtime_dir]
  · rcases hA : get_arch_info arch with m | info <;>
      rcases exeDir with _ | d <;>
      rcases localCab with _ | _ | marc | eOk <;>
      (try cases eOk) <;>
      rcases dl with dm | du <;>
      rcases ex with em | eu <;>
      cases msedge <;>
      simp_all [download_and_extract, try_extract_local_cab,
        get_webview2_runtime_dir, validate_runtime_dir]
  · rcases hA : get_arch_info arch with m | info <;>
      rcases exeDir with _ | d <;>
      rcases localCab with _ | _ | marc | eOk <;>
      (try cases eOk) <;>
      rcases dl with dm | du <;>
      rcases ex with em | eu <;>
      cases msedge <;>
      simp_all [download_and_extract, try_extract_local_cab,
        get_webview2_runtime_dir, validate_runtime_dir, Except.isOk, Except.toBool]
  · intro h
    rcases hde : download_and_extract ⟨arch, exeDir, localCab, dl, ex, msedge, dis, inst⟩
      with ⟨r, eff⟩
    rcases h with h | h <;>
      simp only at h <;>
      rcases r with m | u <;>
      simp_all [ensure_webview2, ensure_download_path, hde, Except.isOk, Except.toBool]

/-- Concrete environment for the C2 witness: x64, exe directory resolved,
no local cab, successful CDN download and extraction, verified runtime,
system WebView2 neither disabled nor installed. -/
def c2WitnessEnv : InstallEnv :=
  { arch := "x86_64"
    exeDir := some "C:/mxu"
    localCab := .noCab
    downloadResult := .ok ()
    cdnExtractResult := .ok ()
    msedgeExePresent := true
    disabledReason := none
    systemInstalled := false }

/-- Concrete environment for the C2 witness fast path: system WebView2
installed and not disabled. -/
def c2WitnessEnvInstalled : InstallEnv :=
  { c2WitnessEnv with systemInstalled := true }

/-- Concrete environment for the C2 witness local-cab path: a matching cab
beside the exe extracts cleanly. -/
def c2WitnessEnvLocalCab : InstallEnv :=
  { c2WitnessEnv with localCab := .matchedCab true }

/-- Witness for C2 at concrete inputs: the installed system runtime returns
`true` with no download and no environment change; a successful CDN flow
sets the browser-folder variable with the runtime verified; a clean local
cab suppresses the CDN download; and with the system runtime unavailable
`ensure_webview2` mirrors `download_and_extract`. -/
theorem c2_webview2_acquisition_flow_witness :
    ensure_webview2 c2WitnessEnvInstalled = (true, ⟨false, false⟩) ∧
    ((download_and_extract c2WitnessEnv).2.browserFolderEnvSet = true ∧
      c2WitnessEnv.msedgeExePresent = true) ∧
    (download_and_extract c2WitnessEnvLocalCab).2.cdnDownloadAttempted = false ∧
    (ensure_webview2 c2WitnessEnv).1 = (download_and_extract c2WitnessEnv).1.isOk :=
  ⟨(c2_webview2_acquisition_flow c2WitnessEnvInstalled).1 rfl rfl,
   (c2_webview2_acquisition_flow c2WitnessEnv).2.1 rfl,
   (c2_webview2_acquisition_flow c2WitnessEnvLocalCab).2.2.1 rfl,
   (c2_webview2_acquisition_flow c2WitnessEnv).2.2.2.2 (Or.inr rfl)⟩

end MXU
